import Mathlib

/-!
Shallow embedding of the session-coordination core of `src/server.js`.

The repository ships two server variants in that file:
* variant A (lines 1–791): the enhanced server with connection-health
  tracking, a 30-second disconnect grace period and a periodic sweep;
* variant B (lines 791–1229): the older server with host-authoritative
  `videoStateChange`, a significance threshold, and host handoff on
  disconnect.

All definitions below are translated from the source; JS timestamps are
`Nat` (milliseconds), JS numbers used for playback positions are `ℚ`,
JS object fields that may be absent are `Option`, and the JS object maps
(`rooms`, `connectionHealth`, ...) are association lists.
-/

namespace SyncVideo

/-- JS `Math.abs` on the rationals modelling JS numbers. -/
def ratAbs (q : ℚ) : ℚ := if q < 0 then -q else q

theorem ratAbs_eq_abs (q : ℚ) : ratAbs q = |q| := by
  unfold ratAbs
  by_cases h : q < 0
  · simp [h, abs_of_neg h]
  · simp [h, abs_of_nonneg (le_of_not_lt h)]

/-! ### Variant A data model (src/server.js lines 38–58, 73–83) -/

/-- The `room.syncState` snapshot as stored by variant A handlers. -/
structure SyncState where
  isPlaying : Bool
  currentTime : ℚ
  timestamp : Nat
  hostId : String
deriving Repr, DecidableEq

/-- A participant record in a variant-A room's `users` array.
`active`/`disconnectedAt` model JS fields that are absent (`none`)
until the disconnect path sets them. -/
structure UserA where
  id : String
  username : String
  isHost : Bool
  isChatOnly : Bool
  lastActive : Nat
  active : Option Bool := none
  disconnectedAt : Option Nat := none
deriving Repr, DecidableEq

/-- A variant-A room (`rooms[roomId]`, lines 74–83). -/
structure RoomA where
  id : String
  users : List UserA
  host : Option String
  streaming : Bool
  fileName : Option String
  fileType : Option String
  lastActive : Nat
  syncState : Option SyncState
deriving Repr, DecidableEq

/-- The `videoState` payload of a `videoStateChange` event. -/
structure VideoPayload where
  isPlaying : Bool
  currentTime : ℚ
deriving Repr, DecidableEq

/-- A `connectionHealth[socketId]` record (the fields the modelled
handlers read and write). -/
structure ConnHealth where
  lastHeartbeat : Nat
  isConnected : Bool
  disconnectedAt : Option Nat := none
deriving Repr, DecidableEq

/-- Outbound messages emitted by the modelled variant-A handlers. -/
inductive EmitA where
  | userJoined (roomId : String) (userId username : String)
      (isHost isChatOnly : Bool) (users : List UserA)
  | streamingStatus (target : String) (isStreaming : Bool)
      (fileName fileType : Option String)
  | fallbackSync (target : String) (ss : SyncState)
  | videoStateUpdate (target : String) (vs : VideoPayload) (timestamp : Nat)
  | videoStateUpdateRoom (roomId : String) (vs : VideoPayload) (timestamp : Nat)
  | userDisconnected (roomId : String) (userId username : String)
      (isHost isChatOnly : Bool) (timestamp : Nat)
  | userLeft (roomId : String) (username : String) (users : List UserA)
deriving Repr, DecidableEq

/-- Tests whether an emission is a `userLeft` notification. -/
def EmitA.isUserLeft : EmitA → Bool
  | .userLeft _ _ _ => true
  | _ => false

/-! ### Variant A: joinRoom (lines 61–150) -/

/-- Lines 87–106: replace the first user record with the same id
(`findIndex` + assignment), or push a new record at the end. -/
def updateUsersOnJoin : List UserA → UserA → List UserA
  | [], u => [u]
  | w :: rest, u =>
    if w.id == u.id then u :: rest else w :: updateUsersOnJoin rest u

/-- The `joinRoom` handler of variant A, restricted to the room it
touches (`rooms[roomId]`, possibly absent).  Returns the updated room
and the emissions, in source order: `userJoined` broadcast,
`streaming-status` unicast, and conditionally the fresh
`fallback-sync-state` unicast (lines 140–147). -/
def joinRoomA (room? : Option RoomA) (socketId roomId username : String)
    (isHost isChatOnly : Bool) (now : Nat) : RoomA × List EmitA :=
  let room : RoomA :=
    match room? with
    | none =>
      { id := roomId, users := [], host := if isHost then some socketId else none,
        streaming := false, fileName := none, fileType := none,
        lastActive := now, syncState := none }
    | some r => r
  let newUser : UserA :=
    { id := socketId, username := username, isHost := isHost,
      isChatOnly := isChatOnly, lastActive := now }
  let users1 := updateUsersOnJoin room.users newUser
  let host1 := if isHost then some socketId else room.host
  let room1 : RoomA := { room with users := users1, host := host1, lastActive := now }
  let ems0 : List EmitA :=
    [EmitA.userJoined roomId socketId username isHost isChatOnly users1,
     EmitA.streamingStatus socketId room1.streaming room1.fileName room1.fileType]
  let ems : List EmitA :=
    match room1.syncState with
    | some ss =>
      if !isHost && !isChatOnly && decide ((now : Int) - (ss.timestamp : Int) < 120000) then
        ems0 ++ [EmitA.fallbackSync socketId ss]
      else ems0
    | none => ems0
  (room1, ems)

/-! ### Variant A: videoStateChange (lines 221–257) -/

/-- The variant-A `videoStateChange` handler: stores the sender's state
as `syncState` unconditionally (no authority check) and forwards it to
every other non-chat-only user; if the room is unknown it falls back to
a transport-level room broadcast. -/
def videoStateChangeA (room? : Option RoomA) (senderId roomId : String)
    (vs : VideoPayload) (now : Nat) : Option RoomA × List EmitA :=
  match room? with
  | some room =>
    let newSync : SyncState :=
      { isPlaying := vs.isPlaying, currentTime := vs.currentTime,
        timestamp := now, hostId := senderId }
    let room1 : RoomA := { room with syncState := some newSync }
    let regularViewers := room1.users.filter (fun u => u.id != senderId && !u.isChatOnly)
    (some room1, regularViewers.map (fun v => EmitA.videoStateUpdate v.id vs now))
  | none => (none, [EmitA.videoStateUpdateRoom roomId vs now])

/-! ### Variant A: heartbeat (lines 153–193) -/

/-- The `heartbeat-ack` payload (lines 185–192). -/
structure HeartbeatAck where
  timestamp : Nat
  serverTime : Nat
  clientTime : Nat
  viewerCount : Nat
  chatOnlyCount : Nat
  hostConnected : Bool
deriving Repr, DecidableEq

/-- Lines 167–170: update `lastActive` of the first user record with
the given id. -/
def touchFirst : List UserA → String → Nat → List UserA
  | [], _, _ => []
  | u :: rest, s, now =>
    if u.id == s then { u with lastActive := now } :: rest
    else u :: touchFirst rest s now

/-- The participant list a heartbeat's counters range over: the named
room's `users`, or none when the room is unknown. -/
def roomUsers (room? : Option RoomA) : List UserA :=
  match room? with
  | some r => r.users
  | none => []

/-- The variant-A `heartbeat` handler restricted to the named room:
refreshes activity stamps, then answers with room occupancy counters.
When the room is unknown the counters keep their zero/false initial
values (lines 174–182). -/
def heartbeatA (room? : Option RoomA) (socketId : String)
    (clientTs now : Nat) : Option RoomA × HeartbeatAck :=
  let room?1 := room?.map fun r =>
    { r with lastActive := now, users := touchFirst r.users socketId now }
  let users : List UserA :=
    match room?1 with
    | some r => r.users
    | none => []
  let viewerCount := (users.filter (fun u => !u.isHost && !u.isChatOnly)).length
  let chatOnlyCount := (users.filter (fun u => u.isChatOnly)).length
  let hostConnected := users.any (fun u => u.isHost && u.id != socketId)
  (room?1,
   { timestamp := now, serverTime := now, clientTime := clientTs,
     viewerCount := viewerCount, chatOnlyCount := chatOnlyCount,
     hostConnected := hostConnected })

/-! ### Variant A: disconnect and deferred cleanup (lines 556–644) -/

/-- The data the disconnect handler's 30-second `setTimeout` closure
captures (lines 583–628): the disconnecting socket, its room, and the
user's host flag and name read at disconnect time. -/
structure PendingCleanup where
  socketId : String
  roomId : String
  wasHost : Bool
  username : String
deriving Repr, DecidableEq

/-- Lines 578–580: set `active = false` and `disconnectedAt = now` on
the first user record with the given id. -/
def markInactiveFirst : List UserA → String → Nat → List UserA
  | [], _, _ => []
  | u :: rest, s, now =>
    if u.id == s then
      { u with active := some false, disconnectedAt := some now } :: rest
    else u :: markInactiveFirst rest s now

/-- Line 572–575: mark the connection-health record disconnected. -/
def disconnectHealth (h? : Option ConnHealth) (now : Nat) : Option ConnHealth :=
  h?.map fun h => { h with isConnected := false, disconnectedAt := some now }

/-- The variant-A `disconnect` handler restricted to the room the
socket was mapped to (the `roomId && rooms[roomId]` case): marks the
user inactive, emits `userDisconnected` immediately, and returns the
scheduled cleanup task (`some` exactly when the user record existed,
line 578). -/
def disconnectA (room : RoomA) (roomId socketId : String) (now : Nat) :
    RoomA × List EmitA × Option PendingCleanup :=
  match room.users.find? (fun u => u.id == socketId) with
  | some u =>
    ({ room with users := markInactiveFirst room.users socketId now },
     [EmitA.userDisconnected roomId socketId u.username u.isHost u.isChatOnly now],
     some { socketId := socketId, roomId := roomId,
            wasHost := u.isHost, username := u.username })
  | none =>
    (room,
     [EmitA.userDisconnected roomId socketId "Unknown user" false false now],
     none)

/-- The body of the 30-second cleanup timer (lines 583–628).  Removes
the user only if still marked inactive; deletes the room when it
becomes empty; clears the host and stops streaming when the departed
user was the (still-current) host; emits one `userLeft`.  The
connection-health record of the socket is deleted unconditionally
(line 627), hence the second component is always `none`. -/
def cleanupA (room? : Option RoomA) (_health? : Option ConnHealth)
    (pc : PendingCleanup) : Option RoomA × Option ConnHealth × List EmitA :=
  match room? with
  | some room =>
    match room.users.find? (fun u => u.id == pc.socketId) with
    | some cu =>
      if cu.active == some false then
        let users1 := room.users.filter (fun u => u.id != pc.socketId)
        if users1.length == 0 then
          (none, none, [])
        else
          let hostLeft := pc.wasHost && room.host == some pc.socketId
          let room1 : RoomA :=
            if hostLeft then
              { room with users := users1, host := none, streaming := false }
            else
              { room with users := users1 }
          let ems1 : List EmitA :=
            if hostLeft then
              (users1.filter (fun u => !u.isChatOnly)).map
                (fun u => EmitA.streamingStatus u.id false none none)
            else []
          (some room1, none,
           ems1 ++ [EmitA.userLeft pc.roomId pc.username
             (users1.filter (fun u => u.active != some false))])
      else (some room, none, [])
    | none => (some room, none, [])
  | none => (none, none, [])

/-! ### Variant A: periodic sweep, connection-health purge (lines 740–748) -/

/-- The sweep's connection-health cleanup: delete every record that is
disconnected for more than 5 minutes (JS `now - undefined > 300000` is
false, so records without `disconnectedAt` are kept). -/
def sweepHealth (health : List (String × ConnHealth)) (now : Nat) :
    List (String × ConnHealth) :=
  health.filter fun kv =>
    !(!kv.2.isConnected &&
      (match kv.2.disconnectedAt with
       | some d => decide ((now : Int) - (d : Int) > 300000)
       | none => false))

/-! ### Variant A: room id generation (lines 647–667 and 751–767) -/

/-- Alphabet of the socket `create-room` handler (line 649). -/
def roomChars : List Char := "ABCDEFGHIJKLMNOPQRSTUVWXYZ0123456789".data

/-- Alphabet of the `POST /create-room` endpoint (line 753). -/
def digitChars : List Char := "0123456789".data

/-- One candidate id: six characters drawn from the alphabet.  The
random draw `Math.floor(Math.random() * characters.length)` is modelled
by an arbitrary stream of naturals reduced into range. -/
def mkRoomId (chars : List Char) (draw : Nat → Nat) (attempt : Nat) : String :=
  String.mk ((List.range 6).map fun i =>
    chars.getD (draw (6 * attempt + i) % chars.length) 'A')

/-- The `do … while (rooms[roomId])` retry loop, made total with fuel:
returns the first candidate that does not collide with a live room id. -/
def createRoomLoop (chars : List Char) (draw : Nat → Nat)
    (roomIds : List String) : Nat → Nat → Option String
  | _, 0 => none
  | attempt, fuel + 1 =>
    let id := mkRoomId chars draw attempt
    if roomIds.contains id then createRoomLoop chars draw roomIds (attempt + 1) fuel
    else some id

/-- The socket `create-room` generation (lines 647–658). -/
def createRoomSocketA (roomIds : List String) (draw : Nat → Nat)
    (fuel : Nat) : Option String :=
  createRoomLoop roomChars draw roomIds 0 fuel

/-- The `POST /create-room` generation (lines 751–762). -/
def createRoomPostA (roomIds : List String) (draw : Nat → Nat)
    (fuel : Nat) : Option String :=
  createRoomLoop digitChars draw roomIds 0 fuel

/-- The variant-A global mutable state (lines 38–43). -/
structure ServerStateA where
  rooms : List (String × RoomA)
  userSocketMap : List (String × String)
  peerIdMap : List (String × String)
  connectionHealth : List (String × ConnHealth)
deriving Repr, DecidableEq

/-- The whole socket `create-room` handler: it only reads `rooms` for
the collision check and performs no state write. -/
def createRoomHandlerA (st : ServerStateA) (draw : Nat → Nat)
    (fuel : Nat) : ServerStateA × Option String :=
  (st, createRoomLoop roomChars draw (st.rooms.map Prod.fst) 0 fuel)

/-- The whole `POST /create-room` handler: likewise read-only. -/
def createRoomPostHandlerA (st : ServerStateA) (draw : Nat → Nat)
    (fuel : Nat) : ServerStateA × Option String :=
  (st, createRoomLoop digitChars draw (st.rooms.map Prod.fst) 0 fuel)

/-! ### Variant B data model (src/server.js lines 1032–1067) -/

/-- The `room.videoState` snapshot in variant B. -/
structure VideoStateB where
  isPlaying : Bool
  currentTime : ℚ
  lastUpdate : Nat
deriving Repr, DecidableEq

/-- A participant record in a variant-B room. -/
structure UserB where
  id : String
  username : String
  isHost : Bool
deriving Repr, DecidableEq

/-- A variant-B room (`rooms[roomId]`, lines 1046–1056). -/
structure RoomB where
  videoState : VideoStateB
  users : List UserB
  videoUrl : Option String
  hostId : Option String
  uploadComplete : Bool
deriving Repr, DecidableEq

/-- The `videoState` payload of a variant-B `videoStateChange`. -/
structure VideoPayloadB where
  isPlaying : Bool
  currentTime : ℚ
deriving Repr, DecidableEq

/-- Outbound messages emitted by the modelled variant-B handlers. -/
inductive EmitB where
  | userJoined (roomId : String) (userId username : String)
      (isHost : Bool) (users : List UserB)
  | videoStateUpdateTo (target : String) (vs : VideoStateB)
  | videoStateUpdateRoom (roomId : String) (vs : VideoStateB)
  | videoUrlUpdateTo (target : String) (url : String)
  | uploadStatusTo (target : String) (complete : Bool)
  | systemMessage (roomId : String) (text : String)
  | userLeft (roomId : String) (userId username : String) (users : List UserB)
deriving Repr, DecidableEq

/-! ### Variant B: joinRoom (lines 1040–1096) -/

/-- The variant-B `joinRoom` handler restricted to the named room.
A missing room is created with `hostId` from the joiner's flag; an
existing room with no host adopts a host-claiming joiner; otherwise
`hostId` is untouched.  The joiner is always appended, with
`isHost = isHost || socket.id === hostId` (line 1067). -/
def joinRoomB (room? : Option RoomB) (socketId roomId username : String)
    (isHost : Bool) (now : Nat) : RoomB × List EmitB :=
  let room : RoomB :=
    match room? with
    | none =>
      { videoState := { isPlaying := false, currentTime := 0, lastUpdate := now },
        users := [], videoUrl := none,
        hostId := if isHost then some socketId else none,
        uploadComplete := false }
    | some r =>
      if isHost && r.hostId == none then { r with hostId := some socketId } else r
  let isHostEff := isHost || room.hostId == some socketId
  let room1 : RoomB :=
    { room with users := room.users ++
        [{ id := socketId, username := username, isHost := isHostEff }] }
  let ems0 : List EmitB :=
    [EmitB.userJoined roomId socketId username isHostEff room1.users,
     EmitB.videoStateUpdateTo socketId room1.videoState]
  let ems : List EmitB :=
    match room1.videoUrl with
    | some url =>
      ems0 ++ [EmitB.videoUrlUpdateTo socketId url,
               EmitB.uploadStatusTo socketId room1.uploadComplete]
    | none => ems0
  (room1, ems)

/-! ### Variant B: videoStateChange (lines 1099–1130) -/

/-- The variant-B `videoStateChange` handler: only the host may update;
the update is applied and broadcast (to the room minus the sender) only
when significant (`isPlaying` differs or `|Δt| > 1.0`); a non-host
sender gets the unchanged current state echoed back. -/
def videoStateChangeB (room? : Option RoomB) (senderId roomId : String)
    (vs : VideoPayloadB) (now : Nat) : Option RoomB × List EmitB :=
  match room? with
  | none => (none, [])
  | some room =>
    if room.hostId == some senderId then
      let cur := room.videoState
      let significant :=
        cur.isPlaying != vs.isPlaying ||
        decide (1 < ratAbs (cur.currentTime - vs.currentTime))
      if significant then
        let newState : VideoStateB :=
          { isPlaying := vs.isPlaying, currentTime := vs.currentTime,
            lastUpdate := now }
        (some { room with videoState := newState },
         [EmitB.videoStateUpdateRoom roomId newState])
      else (some room, [])
    else
      (some room, [EmitB.videoStateUpdateTo senderId room.videoState])

/-! ### Variant B: disconnect (lines 1180–1218) -/

/-- The variant-B `disconnect` handler, for one room containing the
socket: removes the user at its index; if the departed user was the
host and users remain, promotes the first remaining user to host and
announces it; emits `userLeft`; deletes the room when empty. -/
def disconnectRoomB (room : RoomB) (roomId socketId : String) :
    Option RoomB × List EmitB :=
  match room.users.findIdx? (fun u => u.id == socketId) with
  | none => (some room, [])
  | some i =>
    match room.users.get? i with
    | none => (some room, [])
    | some user =>
      let users1 := room.users.eraseIdx i
      let handoff :=
        match users1 with
        | [] => none
        | u0 :: rest =>
          if room.hostId == some socketId then
            some ({ room with
                      users := { u0 with isHost := true } :: rest,
                      hostId := some u0.id },
                  [EmitB.systemMessage roomId
                    (user.username ++ " (host) has left. " ++ u0.username ++
                     " is now the host.")])
          else none
      let (room1, ems1) :=
        match handoff with
        | some p => p
        | none => ({ room with users := users1 }, [])
      let ems := ems1 ++ [EmitB.userLeft roomId socketId user.username room1.users]
      if room1.users.length == 0 then (none, ems) else (some room1, ems)

/-! ### Concrete sample states used by counterexamples and witnesses -/

/-- A host participant record. -/
def hostUserA : UserA :=
  { id := "h", username := "H", isHost := true, isChatOnly := false, lastActive := 0 }

/-- A viewer participant record. -/
def viewerUserA : UserA :=
  { id := "v", username := "V", isHost := false, isChatOnly := false, lastActive := 0 }

/-- A two-user variant-A room with host `"h"` and no cached sync state. -/
def sampleRoomA : RoomA :=
  { id := "R", users := [hostUserA, viewerUserA], host := some "h",
    streaming := false, fileName := none, fileType := none,
    lastActive := 0, syncState := none }

/-- Room `sampleRoomA` with a cached sync state equal to the host's next update. -/
def sampleRoomA2 : RoomA :=
  { sampleRoomA with syncState := some ⟨true, 10, 0, "h"⟩ }

/-- Room `sampleRoomA` after its host has been marked inactive at time 100. -/
def sampleRoomA3 : RoomA :=
  { sampleRoomA with users :=
      [{ hostUserA with active := some false, disconnectedAt := some 100 },
       viewerUserA] }

/-- A two-user variant-B room with host `"h"`. -/
def sampleRoomB : RoomB :=
  { videoState := { isPlaying := true, currentTime := 10, lastUpdate := 0 },
    users := [⟨"h", "H", true⟩, ⟨"v", "V", false⟩], videoUrl := none,
    hostId := some "h", uploadComplete := false }

/-- A connection-health record disconnected at time 100. -/
def sampleHealth : ConnHealth :=
  { lastHeartbeat := 90, isConnected := false, disconnectedAt := some 100 }

/-- The empty variant-A server state. -/
def emptyStateA : ServerStateA := ⟨[], [], [], []⟩

/-- Helper for witnesses: a zero-magnitude seek is within every threshold. -/
theorem ratAbs_sub_self_le_half (q : ℚ) : ratAbs (q - q) ≤ 1 / 2 := by
  norm_num [ratAbs]

/-! ### C1 -/

/-- C1: the claim as stated is false on the code.  The first
`videoStateChange` handler (variant A, lines 221–257) performs no
authority check: a `videoStateChange` from the non-host `"v"` in a
room whose host is `"h"` replaces `room.syncState`, broadcasts a
`videoStateUpdate` to the other participant, and sends no corrective
unicast to the sender. -/
theorem videoStateChangeA_nonhost_mutates :
    sampleRoomA.host = some "h" ∧
    (videoStateChangeA (some sampleRoomA) "v" "R" ⟨true, 10⟩ 5).1 =
      some { sampleRoomA with syncState := some ⟨true, 10, 5, "v"⟩ } ∧
    (videoStateChangeA (some sampleRoomA) "v" "R" ⟨true, 10⟩ 5).2 =
      [EmitA.videoStateUpdate "h" ⟨true, 10⟩ 5] := by
  decide

/-- C1 (amended): in the host-authoritative `videoStateChange` handler
(variant B, lines 1099–1130), an update from a sender who is not the
room's current host leaves the room (in particular its stored state)
unchanged, broadcasts nothing, and unicasts the room's current
authoritative state back to the sender. -/
theorem videoStateChangeB_nonhost_rejected (room : RoomB)
    (senderId roomId : String) (vs : VideoPayloadB) (now : Nat)
    (h : room.hostId ≠ some senderId) :
    videoStateChangeB (some room) senderId roomId vs now =
      (some room, [EmitB.videoStateUpdateTo senderId room.videoState]) := by
  have hb : (room.hostId == some senderId) = false := by
    simp [beq_eq_false_iff_ne, h]
  simp [videoStateChangeB, hb]

/-- Witness for C1's amended theorem at a concrete non-host sender. -/
theorem videoStateChangeB_nonhost_rejected_witness :
    sampleRoomB.hostId ≠ some "v" ∧
    videoStateChangeB (some sampleRoomB) "v" "R" ⟨false, 3⟩ 5 =
      (some sampleRoomB, [EmitB.videoStateUpdateTo "v" sampleRoomB.videoState]) :=
  ⟨by decide, videoStateChangeB_nonhost_rejected sampleRoomB "v" "R" ⟨false, 3⟩ 5 (by decide)⟩

/-! ### C2 -/

/-- C2: the claim as stated is false on the code.  In variant A's
`joinRoom` (lines 87–111), a second joiner claiming host while `"a"`
is already host overwrites `room.host`, and the reachable state built
by two host joins has two participants with `isHost = true`. -/
theorem joinRoomA_second_host_overwrites :
    ((joinRoomA (some (joinRoomA none "a" "R" "alice" true false 0).1)
        "b" "R" "bob" true false 1).1).host = some "b" ∧
    (((joinRoomA (some (joinRoomA none "a" "R" "alice" true false 0).1)
        "b" "R" "bob" true false 1).1).users.filter (fun u => u.isHost)).length = 2 := by
  decide

/-- C2 (amended): in variant B's `joinRoom` (lines 1040–1067) the
first host wins at the `hostId` level: a join requesting host while
the room already has a host leaves `hostId` unchanged.  The later
claimant's own participant record nevertheless carries
`isHost = true`, so the at-most-one-`isHost` invariant still fails. -/
theorem joinRoomB_first_host_wins (room : RoomB)
    (socketId roomId username : String) (isHost : Bool) (now : Nat)
    (h : room.hostId ≠ none) :
    ((joinRoomB (some room) socketId roomId username isHost now).1).hostId = room.hostId ∧
    (isHost = true →
      ∃ u ∈ ((joinRoomB (some room) socketId roomId username isHost now).1).users,
        u.id = socketId ∧ u.isHost = true) := by
  have hb : (room.hostId == none) = false := by
    simp [beq_eq_false_iff_ne, h]
  constructor
  · simp [joinRoomB, hb]
  · intro hH
    refine ⟨{ id := socketId, username := username,
              isHost := isHost || room.hostId == some socketId }, ?_, rfl, by simp [hH]⟩
    simp [joinRoomB, hb, hH]

/-- Witness for C2's amended theorem: `"b"` claims host while `"h"`
already holds it. -/
theorem joinRoomB_first_host_wins_witness :
    sampleRoomB.hostId ≠ none ∧
    ((joinRoomB (some sampleRoomB) "b" "R" "bob" true 1).1).hostId = sampleRoomB.hostId ∧
    (true = true →
      ∃ u ∈ ((joinRoomB (some sampleRoomB) "b" "R" "bob" true 1).1).users,
        u.id = "b" ∧ u.isHost = true) :=
  ⟨by decide,
   (joinRoomB_first_host_wins sampleRoomB "b" "R" "bob" true 1 (by decide)).1,
   (joinRoomB_first_host_wins sampleRoomB "b" "R" "bob" true 1 (by decide)).2⟩

/-! ### C3 -/

/-- C3: the claim as stated is false on the code.  The first
`videoStateChange` handler (variant A, lines 221–257) applies no
significance filter: a host update identical to the stored snapshot
(`isPlaying` unchanged, `|Δt| = 0 ≤ 0.5`) is still stored and still
broadcast to the other participant. -/
theorem videoStateChangeA_no_suppression :
    sampleRoomA2.host = some "h" ∧
    sampleRoomA2.syncState = some ⟨true, 10, 0, "h"⟩ ∧
    (videoStateChangeA (some sampleRoomA2) "h" "R" ⟨true, 10⟩ 7).1 =
      some { sampleRoomA2 with syncState := some ⟨true, 10, 7, "h"⟩ } ∧
    (videoStateChangeA (some sampleRoomA2) "h" "R" ⟨true, 10⟩ 7).2 =
      [EmitA.videoStateUpdate "v" ⟨true, 10⟩ 7] := by
  decide

/-- C3 (amended): in the host-authoritative handler (variant B, lines
1102–1122), whose significance threshold is in fact 1.0 s, a host
update with unchanged `isPlaying` and `|Δt| ≤ 0.5` s emits nothing and
leaves the stored snapshot in place. -/
theorem videoStateChangeB_loop_suppression (room : RoomB)
    (socketId roomId : String) (vs : VideoPayloadB) (now : Nat)
    (hhost : room.hostId = some socketId)
    (hplay : room.videoState.isPlaying = vs.isPlaying)
    (ht : ratAbs (room.videoState.currentTime - vs.currentTime) ≤ 1 / 2) :
    videoStateChangeB (some room) socketId roomId vs now = (some room, []) := by
  have h1 : ¬ (1 < ratAbs (room.videoState.currentTime - vs.currentTime)) := by
    intro hc
    have : (1 : ℚ) ≤ 1 / 2 := le_trans (le_of_lt hc) ht
    norm_num at this
  simp [videoStateChangeB, hhost, hplay, h1]

/-- Witness for C3's amended theorem: host repeats the stored state. -/
theorem videoStateChangeB_loop_suppression_witness :
    sampleRoomB.hostId = some "h" ∧
    sampleRoomB.videoState.isPlaying = true ∧
    ratAbs (sampleRoomB.videoState.currentTime - 10) ≤ 1 / 2 ∧
    videoStateChangeB (some sampleRoomB) "h" "R" ⟨true, 10⟩ 5 = (some sampleRoomB, []) :=
  ⟨rfl, rfl, ratAbs_sub_self_le_half 10,
   videoStateChangeB_loop_suppression sampleRoomB "h" "R" ⟨true, 10⟩ 5 rfl rfl
     (ratAbs_sub_self_le_half 10)⟩

/-! ### C5 -/

/-- C5: the claim as stated is false on the code.  In variant B's
`disconnect` handler (lines 1180–1218) the departing host's room stays
non-empty yet `hostId` is not cleared to none: the first remaining
user is promoted to host instead, and no streaming-stopped
notification exists on that path. -/
theorem disconnectRoomB_promotes_host :
    (disconnectRoomB sampleRoomB "R" "h").1 =
      some { videoState := { isPlaying := true, currentTime := 10, lastUpdate := 0 },
             users := [⟨"v", "V", true⟩], videoUrl := none,
             hostId := some "v", uploadComplete := false } ∧
    (disconnectRoomB sampleRoomB "R" "h").2 =
      [EmitB.systemMessage "R" "H (host) has left. V is now the host.",
       EmitB.userLeft "R" "h" "H" [⟨"v", "V", true⟩]] := by
  decide

/-- C5 (amended): in variant A's deferred 30-second cleanup (lines
583–628), removing a departed participant who was the still-current
host clears `host`, sets `streaming := false`, and emits a
streaming-stopped notification to exactly the remaining non-chat-only
participants, followed by one `userLeft`; if the removal leaves zero
participants the room is deleted instead.  Removal leaving zero
participants deletes the room in variant B as well.  Variant B's
non-empty case promotes the first remaining user to host (see the
counterexample) rather than clearing it. -/
theorem cleanupA_host_departure_spec (room : RoomA) (roomId username socketId : String)
    (u : UserA)
    (hu : room.users.find? (fun w => w.id == socketId) = some u)
    (hact : u.active = some false)
    (hhost : room.host = some socketId) :
    ((room.users.filter (fun w => w.id != socketId) = [] →
        (cleanupA (some room) none ⟨socketId, roomId, true, username⟩).1 = none) ∧
     (room.users.filter (fun w => w.id != socketId) ≠ [] →
        (cleanupA (some room) none ⟨socketId, roomId, true, username⟩).1 =
          some { room with
                   users := room.users.filter (fun w => w.id != socketId),
                   host := none, streaming := false } ∧
        (cleanupA (some room) none ⟨socketId, roomId, true, username⟩).2.2 =
          ((room.users.filter (fun w => w.id != socketId)).filter
              (fun w => !w.isChatOnly)).map
            (fun w => EmitA.streamingStatus w.id false none none) ++
          [EmitA.userLeft roomId username
            ((room.users.filter (fun w => w.id != socketId)).filter
              (fun w => w.active != some false))])) ∧
    (∀ (rb : RoomB) (ub : UserB), rb.users = [ub] → ub.id = socketId →
      (disconnectRoomB rb roomId socketId).1 = none) := by
  have hactb : (u.active == some false) = true := by simp [hact]
  refine ⟨⟨?_, ?_⟩, ?_⟩
  · intro hempty
    simp [cleanupA, hu, hactb, hempty]
  · intro hne
    have hlen : ((room.users.filter (fun w => w.id != socketId)).length == 0) = false := by
      simp only [beq_eq_false_iff_ne, ne_eq, List.length_eq_zero]
      exact hne
    have hhostb : (room.host == some socketId) = true := by simp [hhost]
    constructor
    · simp [cleanupA, hu, hactb, hlen, hhostb]
    · simp [cleanupA, hu, hactb, hlen, hhostb]
  · intro rb ub husers hid
    have hb : (ub.id == socketId) = true := by simp [hid]
    simp [disconnectRoomB, husers, hb, List.findIdx?]

/-- Witness for C5's amended theorem: the inactive host `"h"` of
`sampleRoomA3` is cleaned up, leaving viewer `"v"`. -/
theorem cleanupA_host_departure_spec_witness :
    sampleRoomA3.users.find? (fun w => w.id == "h") =
      some { hostUserA with active := some false, disconnectedAt := some 100 } ∧
    sampleRoomA3.host = some "h" ∧
    (cleanupA (some sampleRoomA3) none ⟨"h", "R", true, "H"⟩).1 =
      some { sampleRoomA3 with users := [viewerUserA], host := none, streaming := false } ∧
    (cleanupA (some sampleRoomA3) none ⟨"h", "R", true, "H"⟩).2.2 =
      [EmitA.streamingStatus "v" false none none,
       EmitA.userLeft "R" "H" [viewerUserA]] := by
  have h := (cleanupA_host_departure_spec sampleRoomA3 "R" "H" "h"
    { hostUserA with active := some false, disconnectedAt := some 100 }
    (by decide) rfl rfl).1.2 (by decide)
  exact ⟨by decide, rfl, h.1, h.2⟩

/-! ### C6 -/

/-- C6: in variant A's `joinRoom` (lines 140–147), a non-host,
non-chat-only joiner of a room holding a cached `syncState` receives
that snapshot as a `fallback-sync-state` unicast if and only if the
snapshot's timestamp is strictly less than 2 minutes (120000 ms) old
at join time. -/
theorem joinRoomA_fallback_sync_iff_fresh (room : RoomA)
    (socketId roomId username : String) (now : Nat) (ss : SyncState)
    (hss : room.syncState = some ss) :
    EmitA.fallbackSync socketId ss ∈
        (joinRoomA (some room) socketId roomId username false false now).2 ↔
      (now : Int) - (ss.timestamp : Int) < 120000 := by
  by_cases hfresh : (now : Int) - (ss.timestamp : Int) < 120000
  · simp [joinRoomA, hss, hfresh]
  · simp [joinRoomA, hss, hfresh]

/-- Witness for C6 at a fresh snapshot (1 second old). -/
theorem joinRoomA_fallback_sync_iff_fresh_witness :
    ({ sampleRoomA with syncState := some ⟨false, 3, 1000, "h"⟩ } : RoomA).syncState =
      some ⟨false, 3, 1000, "h"⟩ ∧
    ((2000 : Int) - (1000 : Int) < 120000) ∧
    EmitA.fallbackSync "n" ⟨false, 3, 1000, "h"⟩ ∈
      (joinRoomA (some { sampleRoomA with syncState := some ⟨false, 3, 1000, "h"⟩ })
        "n" "R" "N" false false 2000).2 :=
  ⟨rfl, by decide,
   (joinRoomA_fallback_sync_iff_fresh
     { sampleRoomA with syncState := some ⟨false, 3, 1000, "h"⟩ }
     "n" "R" "N" 2000 ⟨false, 3, 1000, "h"⟩ rfl).mpr (by decide)⟩

/-! ### C7 -/

/-- Every candidate id has length 6. -/
theorem mkRoomId_length (chars : List Char) (draw : Nat → Nat) (attempt : Nat) :
    (mkRoomId chars draw attempt).length = 6 := by
  simp [mkRoomId, String.length]

/-- Every character of a candidate id is drawn from the alphabet. -/
theorem mkRoomId_chars (chars : List Char) (draw : Nat → Nat) (attempt : Nat)
    (hne : chars ≠ []) :
    ∀ c ∈ (mkRoomId chars draw attempt).data, c ∈ chars := by
  intro c hc
  simp only [mkRoomId, String.data, List.mem_map, List.mem_range] at hc
  obtain ⟨i, _, rfl⟩ := hc
  have hlen : 0 < chars.length := List.length_pos.mpr hne
  have hlt : draw (6 * attempt + i) % chars.length < chars.length :=
    Nat.mod_lt _ hlen
  rw [List.getD_eq_getElem chars 'A' hlt]
  exact List.getElem_mem hlt

/-- The retry loop only ever returns a six-character id over its
alphabet that does not collide with a live room id. -/
theorem createRoomLoop_spec (chars : List Char) (draw : Nat → Nat)
    (roomIds : List String) (hne : chars ≠ []) :
    ∀ fuel attempt id, createRoomLoop chars draw roomIds attempt fuel = some id →
      id.length = 6 ∧ (∀ c ∈ id.data, c ∈ chars) ∧ id ∉ roomIds := by
  intro fuel
  induction fuel with
  | zero => intro attempt id h; simp [createRoomLoop] at h
  | succ n ih =>
    intro attempt id h
    rw [createRoomLoop] at h
    by_cases hcol : roomIds.contains (mkRoomId chars draw attempt)
    · rw [if_pos hcol] at h
      exact ih (attempt + 1) id h
    · rw [if_neg hcol] at h
      obtain rfl : mkRoomId chars draw attempt = id := by
        simpa using h
      refine ⟨mkRoomId_length chars draw attempt, mkRoomId_chars chars draw attempt hne, ?_⟩
      simpa using hcol

/-- The alphanumeric alphabets of the two generators. -/
theorem roomChars_alphanum : ∀ c ∈ roomChars, c.isAlphanum = true := by decide

/-- The digit alphabet of the HTTP generator is alphanumeric too. -/
theorem digitChars_alphanum : ∀ c ∈ digitChars, c.isAlphanum = true := by decide

/-- C7: whenever the socket `create-room` generation (lines 647–658)
or the `POST /create-room` generation (lines 751–762) returns an
identifier, it is a 6-character string of alphanumeric characters that
collides with no live room id. -/
theorem createRoom_id_spec (roomIds : List String) (draw : Nat → Nat)
    (fuel : Nat) (idS idP : String)
    (hS : createRoomSocketA roomIds draw fuel = some idS)
    (hP : createRoomPostA roomIds draw fuel = some idP) :
    (idS.length = 6 ∧ (∀ c ∈ idS.data, c.isAlphanum = true) ∧ idS ∉ roomIds) ∧
    (idP.length = 6 ∧ (∀ c ∈ idP.data, c.isAlphanum = true) ∧ idP ∉ roomIds) := by
  have h1 := createRoomLoop_spec roomChars draw roomIds (by decide) fuel 0 idS hS
  have h2 := createRoomLoop_spec digitChars draw roomIds (by decide) fuel 0 idP hP
  exact ⟨⟨h1.1, fun c hc => roomChars_alphanum c (h1.2.1 c hc), h1.2.2⟩,
         ⟨h2.1, fun c hc => digitChars_alphanum c (h2.2.1 c hc), h2.2.2⟩⟩

/-- Witness for C7 with a constant random stream over an empty registry. -/
theorem createRoom_id_spec_witness :
    createRoomSocketA [] (fun _ => 0) 1 = some "AAAAAA" ∧
    createRoomPostA [] (fun _ => 0) 1 = some "000000" ∧
    (("AAAAAA".length = 6 ∧ (∀ c ∈ "AAAAAA".data, c.isAlphanum = true) ∧
        "AAAAAA" ∉ ([] : List String)) ∧
     ("000000".length = 6 ∧ (∀ c ∈ "000000".data, c.isAlphanum = true) ∧
        "000000" ∉ ([] : List String))) :=
  ⟨by decide, by decide,
   createRoom_id_spec [] (fun _ => 0) 1 "AAAAAA" "000000" (by decide) (by decide)⟩

/-! ### C8 -/

/-- C8: the claim as stated is false on the code.  The 30-second
disconnect-cleanup timer (line 627) deletes the connection-health
record of the disconnected socket unconditionally when it fires, i.e.
30000 ms after `disconnectedAt` — far earlier than the 5-minute
(300000 ms) retention window. -/
theorem cleanupA_deletes_health_early :
    sampleHealth.isConnected = false ∧
    sampleHealth.disconnectedAt = some 100 ∧
    (cleanupA (some sampleRoomA3) (some sampleHealth) ⟨"h", "R", true, "H"⟩).2.1 = none ∧
    ((100 + 30000 : Int) - 100 ≤ 300000) := by
  decide

/-- C8 (amended): the 15-second sweep (lines 740–748) keeps a
connection-health record exactly when it is not (disconnected with
`now − disconnectedAt > 300000` ms); so the sweep alone purges
precisely the records disconnected for more than 5 minutes.  A record
whose socket was in a room is nevertheless deleted earlier, by the
30-second disconnect-cleanup timer (see the counterexample). -/
theorem sweepHealth_purge_iff (health : List (String × ConnHealth))
    (now : Nat) (k : String) (h : ConnHealth) :
    (k, h) ∈ sweepHealth health now ↔
      ((k, h) ∈ health ∧
        ¬(h.isConnected = false ∧
          ∃ d, h.disconnectedAt = some d ∧ 300000 < (now : Int) - (d : Int))) := by
  rw [sweepHealth, List.mem_filter]
  cases hd : h.disconnectedAt with
  | none => simp [hd]
  | some d =>
    cases hc : h.isConnected <;> simp [hd, hc]

/-! ### C9 -/

/-- Refreshing a heartbeat timestamp does not change which users count
as a connected host other than the caller. -/
theorem touchFirst_any_host (l : List UserA) (s t : String) (now : Nat) :
    (touchFirst l s now).any (fun u => u.isHost && u.id != t) =
      l.any (fun u => u.isHost && u.id != t) := by
  induction l with
  | nil => rfl
  | cons u rest ih =>
    by_cases hid : (u.id == s) = true
    · simp [touchFirst, hid]
    · simp only [Bool.not_eq_true] at hid
      simp [touchFirst, hid, ih]

/-- Refreshing a heartbeat timestamp does not change the viewer count. -/
theorem touchFirst_filter_viewers (l : List UserA) (s : String) (now : Nat) :
    ((touchFirst l s now).filter (fun u => !u.isHost && !u.isChatOnly)).length =
      (l.filter (fun u => !u.isHost && !u.isChatOnly)).length := by
  induction l with
  | nil => rfl
  | cons u rest ih =>
    by_cases hid : (u.id == s) = true
    · cases hp : (!u.isHost && !u.isChatOnly) <;>
        simp [touchFirst, hid, List.filter_cons, hp]
    · simp only [Bool.not_eq_true] at hid
      cases hp : (!u.isHost && !u.isChatOnly) <;>
        simp [touchFirst, hid, List.filter_cons, hp, ih]

/-- C9: the `heartbeat-ack` (lines 174–192) reports
`hostConnected = true` iff some participant of the named room other
than the caller has `isHost = true`, and `viewerCount` as the number
of participants that are neither host nor chat-only; an unknown room
yields the empty participant list. -/
theorem heartbeatA_ack_spec (room? : Option RoomA) (socketId : String)
    (clientTs now : Nat) :
    ((heartbeatA room? socketId clientTs now).2.hostConnected = true ↔
      ∃ u ∈ roomUsers room?, u.isHost = true ∧ u.id ≠ socketId) ∧
    (heartbeatA room? socketId clientTs now).2.viewerCount =
      ((roomUsers room?).filter (fun u => !u.isHost && !u.isChatOnly)).length := by
  cases room? with
  | none => simp [heartbeatA, roomUsers]
  | some r =>
    constructor
    · rw [show (heartbeatA (some r) socketId clientTs now).2.hostConnected =
          (touchFirst r.users socketId now).any (fun u => u.isHost && u.id != socketId)
          from rfl]
      rw [touchFirst_any_host]
      simp [roomUsers, List.any_eq_true, Bool.and_eq_true, bne_iff_ne]
    · rw [show (heartbeatA (some r) socketId clientTs now).2.viewerCount =
          ((touchFirst r.users socketId now).filter
            (fun u => !u.isHost && !u.isChatOnly)).length from rfl]
      rw [touchFirst_filter_viewers]
      rfl

/-! ### C10 -/

/-- Keys absent from an association list have no binding. -/
theorem lookup_eq_none_of_not_mem_keys (l : List (String × RoomA)) (k : String)
    (h : k ∉ l.map Prod.fst) : l.lookup k = none := by
  induction l with
  | nil => rfl
  | cons p rest ih =>
    obtain ⟨k1, v1⟩ := p
    simp only [List.map, List.mem_cons] at h
    push_neg at h
    have hk : (k == k1) = false := by simp [h.1]
    simp [List.lookup, hk, ih h.2]

/-- C10: both create-room operations of variant A (the socket
`create-room` handler, lines 647–667, and `POST /create-room`, lines
751–767) leave the whole server state unchanged; any identifier they
return has no binding in the room registry, and a room under that
identifier arises only when a `joinRoom` names it (its `joinRoom`
creates the room record keyed by that id). -/
theorem createRoom_frame_spec (st : ServerStateA) (draw : Nat → Nat)
    (fuel : Nat) (idS idP : String)
    (hS : (createRoomHandlerA st draw fuel).2 = some idS)
    (hP : (createRoomPostHandlerA st draw fuel).2 = some idP) :
    (createRoomHandlerA st draw fuel).1 = st ∧
    (createRoomPostHandlerA st draw fuel).1 = st ∧
    st.rooms.lookup idS = none ∧ st.rooms.lookup idP = none ∧
    (∀ (socketId username : String) (isHost isChatOnly : Bool) (now : Nat),
      ((joinRoomA none socketId idS username isHost isChatOnly now).1).id = idS) := by
  have h1 := createRoomLoop_spec roomChars draw (st.rooms.map Prod.fst)
    (by decide) fuel 0 idS hS
  have h2 := createRoomLoop_spec digitChars draw (st.rooms.map Prod.fst)
    (by decide) fuel 0 idP hP
  exact ⟨rfl, rfl, lookup_eq_none_of_not_mem_keys _ _ h1.2.2,
    lookup_eq_none_of_not_mem_keys _ _ h2.2.2, fun _ _ _ _ _ => rfl⟩

/-- Witness for C10 on the empty server state. -/
theorem createRoom_frame_spec_witness :
    (createRoomHandlerA emptyStateA (fun _ => 0) 1).2 = some "AAAAAA" ∧
    (createRoomPostHandlerA emptyStateA (fun _ => 0) 1).2 = some "000000" ∧
    (createRoomHandlerA emptyStateA (fun _ => 0) 1).1 = emptyStateA ∧
    emptyStateA.rooms.lookup "AAAAAA" = none ∧
    ((joinRoomA none "s0" "AAAAAA" "N" false false 7).1).id = "AAAAAA" :=
  ⟨by decide, by decide,
   (createRoom_frame_spec emptyStateA (fun _ => 0) 1 "AAAAAA" "000000"
     (by decide) (by decide)).1,
   (createRoom_frame_spec emptyStateA (fun _ => 0) 1 "AAAAAA" "000000"
     (by decide) (by decide)).2.2.1,
   (createRoom_frame_spec emptyStateA (fun _ => 0) 1 "AAAAAA" "000000"
     (by decide) (by decide)).2.2.2.2 "s0" "N" false false 7⟩

/-! ### C4: supporting lemmas -/

/-- Evaluation of `find?` on a cons whose head matches. -/
theorem find?_cons_true {α : Type} (p : α → Bool) (a : α) (l : List α)
    (h : p a = true) : List.find? p (a :: l) = some a := by
  simp [List.find?, h]

/-- Evaluation of `find?` on a cons whose head does not match. -/
theorem find?_cons_false {α : Type} (p : α → Bool) (a : α) (l : List α)
    (h : p a = false) : List.find? p (a :: l) = List.find? p l := by
  simp [List.find?, h]

/-- Marking the first matching user inactive is visible to a
subsequent lookup of that user. -/
theorem find?_markInactiveFirst (l : List UserA) (s : String) (now : Nat)
    (u : UserA) (h : l.find? (fun w => w.id == s) = some u) :
    (markInactiveFirst l s now).find? (fun w => w.id == s) =
      some { u with active := some false, disconnectedAt := some now } := by
  induction l with
  | nil => simp at h
  | cons w rest ih =>
    by_cases hw : (w.id == s) = true
    · rw [find?_cons_true (fun w => w.id == s) w rest hw] at h
      obtain rfl : w = u := by simpa using h
      rw [markInactiveFirst, if_pos hw]
      exact find?_cons_true _ _ _ hw
    · have hwf : (w.id == s) = false := by simpa using hw
      rw [find?_cons_false (fun w => w.id == s) w rest hwf] at h
      rw [markInactiveFirst, if_neg (by simp [hwf])]
      rw [find?_cons_false (fun w => w.id == s) w (markInactiveFirst rest s now) hwf]
      exact ih h

/-- After a rejoin, the lookup of the rejoining id finds exactly the
fresh record written by `joinRoom`. -/
theorem find?_updateUsersOnJoin (l : List UserA) (v : UserA) (s : String)
    (hid : v.id = s) :
    (updateUsersOnJoin l v).find? (fun w => w.id == s) = some v := by
  induction l with
  | nil =>
    rw [updateUsersOnJoin]
    exact find?_cons_true _ _ _ (by simp [hid])
  | cons w rest ih =>
    by_cases hw : (w.id == v.id) = true
    · rw [updateUsersOnJoin, if_pos hw]
      exact find?_cons_true _ _ _ (by simp [hid])
    · have hwf : (w.id == v.id) = false := by simpa using hw
      have hws : (w.id == s) = false := by rw [← hid]; exact hwf
      rw [updateUsersOnJoin, if_neg (by simp [hwf])]
      rw [find?_cons_false (fun w => w.id == s) w (updateUsersOnJoin rest v) hws]
      exact ih

/-- Marking a user inactive does not change the list of other users. -/
theorem filter_markInactiveFirst (l : List UserA) (s : String) (now : Nat) :
    (markInactiveFirst l s now).filter (fun w => w.id != s) =
      l.filter (fun w => w.id != s) := by
  induction l with
  | nil => rfl
  | cons w rest ih =>
    by_cases hw : (w.id == s) = true
    · have hdrop : (w.id != s) = false := by simp [bne, hw]
      rw [markInactiveFirst, if_pos hw]
      simp only [List.filter_cons]
      simp [hdrop]
    · have hwf : (w.id == s) = false := by simpa using hw
      have hkeep : (w.id != s) = true := by simp [bne, hwf]
      rw [markInactiveFirst, if_neg (by simp [hwf])]
      simp only [List.filter_cons]
      simp [hkeep, ih]

/-- Everything surviving the removal filter really has a different id. -/
theorem filter_ne_all (l : List UserA) (s : String) :
    (l.filter (fun w => w.id != s)).all (fun w => w.id != s) = true := by
  rw [List.all_eq_true]
  intro w hw
  exact (List.mem_filter.mp hw).2

/-- Streaming-stopped notifications are not `userLeft` notifications. -/
theorem countP_streamingStatus_zero (l : List UserA) :
    (l.map (fun w => EmitA.streamingStatus w.id false none none)).countP
      EmitA.isUserLeft = 0 := by
  rw [List.countP_eq_zero]
  intro e he
  obtain ⟨w, _, rfl⟩ := List.mem_map.mp he
  simp [EmitA.isUserLeft]

/-- The deferred cleanup does nothing when the user's record is no
longer marked inactive (the reconnection case). -/
theorem cleanupA_noop (room : RoomA) (h? : Option ConnHealth)
    (pc : PendingCleanup) (v : UserA)
    (hf : room.users.find? (fun w => w.id == pc.socketId) = some v)
    (hv : v.active = none) :
    cleanupA (some room) h? pc = (some room, none, []) := by
  have hb : (v.active == some false) = false := by rw [hv]; rfl
  simp [cleanupA, hf, hb]

/-- The deferred cleanup of a still-inactive user removes that user
and emits `userLeft` exactly once when other users remain, and none
when the room is deleted. -/
theorem cleanupA_removes (room : RoomA) (h? : Option ConnHealth)
    (pc : PendingCleanup) (v : UserA)
    (hf : room.users.find? (fun w => w.id == pc.socketId) = some v)
    (hv : v.active = some false) :
    ((cleanupA (some room) h? pc).1.all
      (fun r => r.users.all (fun w => w.id != pc.socketId)) = true) ∧
    (cleanupA (some room) h? pc).2.2.countP EmitA.isUserLeft =
      (if room.users.filter (fun w => w.id != pc.socketId) = [] then 0 else 1) := by
  have hb : (v.active == some false) = true := by rw [hv]; rfl
  by_cases hempty : room.users.filter (fun w => w.id != pc.socketId) = []
  · have hlen : ((room.users.filter (fun w => w.id != pc.socketId)).length == 0) = true := by
      simp [hempty]
    simp [cleanupA, hf, hb, hlen, hempty]
  · have hlen : ((room.users.filter (fun w => w.id != pc.socketId)).length == 0) = false := by
      simp [List.length_eq_zero, hempty]
    cases hhl : (pc.wasHost && room.host == some pc.socketId) with
    | true =>
      constructor
      · simp [cleanupA, hf, hb, hlen, hhl, filter_ne_all]
      · simp [cleanupA, hf, hb, hlen, hhl, hempty, List.countP_append,
          countP_streamingStatus_zero, List.countP_cons, EmitA.isUserLeft]
    | false =>
      constructor
      · simp [cleanupA, hf, hb, hlen, hhl, filter_ne_all]
      · simp [cleanupA, hf, hb, hlen, hhl, hempty, List.countP_cons, EmitA.isUserLeft]

/-- C4: variant A's two-phase disconnect (lines 556–644 with `joinRoom`
lines 87–106).  On disconnect the participant is immediately marked
`active = false` with `disconnectedAt = now`, exactly one
`userDisconnected` is emitted, and a deferred cleanup is scheduled.
If the same connection identity rejoins (same socket id, name and
role flags) before that cleanup fires, the cleanup is a no-op — the
membership record written by the rejoin stays and no `userLeft` is
ever emitted for the disconnect.  Without a rejoin, the cleanup
removes the participant, emitting `userLeft` exactly once when other
users remain and zero times when the then-empty room is deleted. -/
theorem disconnect_grace_period_spec (room : RoomA) (roomId socketId : String)
    (u : UserA) (now now2 : Nat)
    (hu : room.users.find? (fun w => w.id == socketId) = some u) :
    ((disconnectA room roomId socketId now).1).users.find?
        (fun w => w.id == socketId) =
      some { u with active := some false, disconnectedAt := some now } ∧
    (disconnectA room roomId socketId now).2.1 =
      [EmitA.userDisconnected roomId socketId u.username u.isHost u.isChatOnly now] ∧
    (disconnectA room roomId socketId now).2.2 =
      some ⟨socketId, roomId, u.isHost, u.username⟩ ∧
    (((joinRoomA (some (disconnectA room roomId socketId now).1) socketId roomId
          u.username u.isHost u.isChatOnly now2).1).users.find?
        (fun w => w.id == socketId) =
      some ⟨socketId, u.username, u.isHost, u.isChatOnly, now2, none, none⟩ ∧
     cleanupA (some (joinRoomA (some (disconnectA room roomId socketId now).1)
          socketId roomId u.username u.isHost u.isChatOnly now2).1) none
        ⟨socketId, roomId, u.isHost, u.username⟩ =
      (some (joinRoomA (some (disconnectA room roomId socketId now).1)
          socketId roomId u.username u.isHost u.isChatOnly now2).1, none, [])) ∧
    ((cleanupA (some (disconnectA room roomId socketId now).1) none
          ⟨socketId, roomId, u.isHost, u.username⟩).1.all
        (fun r => r.users.all (fun w => w.id != socketId)) = true ∧
     (cleanupA (some (disconnectA room roomId socketId now).1) none
          ⟨socketId, roomId, u.isHost, u.username⟩).2.2.countP EmitA.isUserLeft =
       (if room.users.filter (fun w => w.id != socketId) = [] then 0 else 1)) := by
  have hD : disconnectA room roomId socketId now =
      ({ room with users := markInactiveFirst room.users socketId now },
       [EmitA.userDisconnected roomId socketId u.username u.isHost u.isChatOnly now],
       some ⟨socketId, roomId, u.isHost, u.username⟩) := by
    simp [disconnectA, hu]
  have hfindM : (markInactiveFirst room.users socketId now).find?
      (fun w => w.id == socketId) =
      some { u with active := some false, disconnectedAt := some now } :=
    find?_markInactiveFirst room.users socketId now u hu
  have hfindJ : ((joinRoomA
      (some { room with users := markInactiveFirst room.users socketId now })
      socketId roomId u.username u.isHost u.isChatOnly now2).1).users.find?
        (fun w => w.id == socketId) =
      some ⟨socketId, u.username, u.isHost, u.isChatOnly, now2, none, none⟩ :=
    find?_updateUsersOnJoin (markInactiveFirst room.users socketId now)
      ⟨socketId, u.username, u.isHost, u.isChatOnly, now2, none, none⟩ socketId rfl
  have hRemoved := cleanupA_removes
    { room with users := markInactiveFirst room.users socketId now } none
    ⟨socketId, roomId, u.isHost, u.username⟩
    { u with active := some false, disconnectedAt := some now } hfindM rfl
  refine ⟨?_, ?_, ?_, ⟨?_, ?_⟩, ?_, ?_⟩
  · rw [hD]; exact hfindM
  · rw [hD]
  · rw [hD]
  · rw [hD]; exact hfindJ
  · rw [hD]
    exact cleanupA_noop _ none ⟨socketId, roomId, u.isHost, u.username⟩
      ⟨socketId, u.username, u.isHost, u.isChatOnly, now2, none, none⟩ hfindJ rfl
  · rw [hD]; exact hRemoved.1
  · rw [hD]
    have := hRemoved.2
    rwa [show ({ room with users := markInactiveFirst room.users socketId now } :
        RoomA).users.filter (fun w => w.id != socketId) =
      room.users.filter (fun w => w.id != socketId)
      from filter_markInactiveFirst room.users socketId now] at this

/-- Witness for C4: the viewer `"v"` of `sampleRoomA` disconnects at
time 3 and either rejoins at time 9 or is cleaned up. -/
theorem disconnect_grace_period_spec_witness :
    sampleRoomA.users.find? (fun w => w.id == "v") = some viewerUserA ∧
    ((disconnectA sampleRoomA "R" "v" 3).1).users.find? (fun w => w.id == "v") =
      some { viewerUserA with active := some false, disconnectedAt := some 3 } ∧
    (disconnectA sampleRoomA "R" "v" 3).2.1 =
      [EmitA.userDisconnected "R" "v" "V" false false 3] ∧
    cleanupA (some (joinRoomA (some (disconnectA sampleRoomA "R" "v" 3).1)
        "v" "R" "V" false false 9).1) none ⟨"v", "R", false, "V"⟩ =
      (some (joinRoomA (some (disconnectA sampleRoomA "R" "v" 3).1)
        "v" "R" "V" false false 9).1, none, []) ∧
    (cleanupA (some (disconnectA sampleRoomA "R" "v" 3).1) none
        ⟨"v", "R", false, "V"⟩).2.2.countP EmitA.isUserLeft =
      (if sampleRoomA.users.filter (fun w => w.id != "v") = [] then 0 else 1) := by
  have h := disconnect_grace_period_spec sampleRoomA "R" "v" viewerUserA 3 9 (by decide)
  exact ⟨by decide, h.1, h.2.1, h.2.2.2.1.2, h.2.2.2.2.2⟩

end SyncVideo
